import Mathlib

/-!
Verification of the calendar-system event core: a shallow embedding of the event data model and operations of
`src/App.js`: the event store, the filter/search projection, the
localStorage persistence round trip (with the `start`/`end` JSON
date-revival rule), form submission, event removal, the per-type
filter toggles, and the view-transition controller.

Machine integers are modelled as `Int`/`Nat`; JavaScript `Date` values
are modelled by their epoch-millisecond value.
-/

/-- An event record, as created by `handleSubmit` in `src/App.js`:
`{ id: Date.now(), title, description, type, start: Date, end: Date }`.
`Date` values are epoch milliseconds; the `end` field is named `end_`
because `end` is a Lean keyword. -/
structure EventRec where
  id : Int
  title : String
  description : String
  type : String
  start : Int
  end_ : Int
deriving DecidableEq, Repr

/-- The filter state `{ reminder: true, plan: true, other: true }`
initialised by `useState` in `src/App.js` (one boolean per key of
`eventTypes`). -/
structure Filters where
  reminder : Bool
  plan : Bool
  other : Bool
deriving DecidableEq, Repr

/-- The three keys of the `eventTypes` object in `src/App.js`. -/
inductive TypeKey where
  | reminder
  | plan
  | other
deriving DecidableEq, Repr

/-- The string key of a `TypeKey`, as used by `Object.keys(eventTypes)`. -/
def TypeKey.key : TypeKey → String
  | .reminder => "reminder"
  | .plan => "plan"
  | .other => "other"

/-- The initial filter state: all three flags `true`. -/
def initialFilters : Filters :=
  { reminder := true, plan := true, other := true }

/-- JavaScript property lookup `filters[t]` for a string key `t`,
coerced to boolean: an absent key reads as `undefined`, which is falsy,
so any key other than the three declared ones yields `false`. -/
def filterFlag (f : Filters) (t : String) : Bool :=
  if t = "reminder" then f.reminder
  else if t = "plan" then f.plan
  else if t = "other" then f.other
  else false

/-- Model of `toggleFilter` from `src/App.js`:
`setFilters(prev => ({ ...prev, [type]: !prev[type] }))`, called with a
key of `eventTypes`. -/
def toggleFilter (f : Filters) (t : TypeKey) : Filters :=
  match t with
  | .reminder => { f with reminder := !f.reminder }
  | .plan => { f with plan := !f.plan }
  | .other => { f with other := !f.other }

/-- Case-insensitive substring test
`ev.title.toLowerCase().includes(q.toLowerCase())`: case-insensitive
substring test (ASCII case folding in this model). -/
def includesCI (title q : String) : Bool :=
  decide (q.toLower.data <:+: title.toLower.data)

/-- The predicate body of `events.filter((ev) => ...)` computing
`filteredEvents` in `src/App.js`: drop the record when its type's
filter flag is off, or when the query is non-blank and the title does
not contain it case-insensitively. -/
def eventKept (filters : Filters) (searchQuery : String) (ev : EventRec) : Bool :=
  if !(filterFlag filters ev.type) then false
  else if searchQuery.trim != "" && !(includesCI ev.title searchQuery) then false
  else true

/-- The projection `filteredEvents` from `src/App.js`. -/
def filteredEvents (events : List EventRec) (filters : Filters) (searchQuery : String) :
    List EventRec :=
  events.filter (eventKept filters searchQuery)

theorem eventKept_eq_true_iff (filters : Filters) (q : String) (ev : EventRec) :
    eventKept filters q ev = true ↔
      (filterFlag filters ev.type = true ∧ (q.trim = "" ∨ includesCI ev.title q = true)) := by
  unfold eventKept
  rcases h1 : filterFlag filters ev.type with _ | _ <;>
    rcases h2 : includesCI ev.title q with _ | _ <;>
    by_cases h3 : q.trim = "" <;>
    simp [h1, h2, h3]

/-- **C1.** The filter/search projection returns exactly the records
whose type flag is on and which match the (possibly blank) query; the
output is an ordered sublist of the input. -/
theorem filteredEvents_spec (events : List EventRec) (filters : Filters) (q : String) :
    List.Sublist (filteredEvents events filters q) events ∧
    (∀ ev, ev ∈ filteredEvents events filters q ↔
      (ev ∈ events ∧ filterFlag filters ev.type = true ∧
        (q.trim = "" ∨ includesCI ev.title q = true))) := by
  refine ⟨List.filter_sublist events, fun ev => ?_⟩
  rw [filteredEvents, List.mem_filter, eventKept_eq_true_iff]

/-- Witness for C1 at a concrete store, filter state and query. -/
theorem filteredEvents_spec_witness :
    let e : EventRec := ⟨1, "Dentist", "", "reminder", 0, 1⟩
    List.Sublist (filteredEvents [e] initialFilters "den") [e] ∧
    (∀ ev, ev ∈ filteredEvents [e] initialFilters "den" ↔
      (ev ∈ [e] ∧ filterFlag initialFilters ev.type = true ∧
        (("den" : String).trim = "" ∨ includesCI ev.title "den" = true))) :=
  filteredEvents_spec [⟨1, "Dentist", "", "reminder", 0, 1⟩] initialFilters "den"

/-- **C7.** The projection is a pure function of its inputs: equal
inputs give equal (by value) outputs, and every output record is one of
the input records, unmodified (the input store itself is left intact:
the projection builds a new list). -/
theorem filteredEvents_pure (events : List EventRec) (filters : Filters) (q : String) :
    filteredEvents events filters q = filteredEvents events filters q ∧
    (∀ ev ∈ filteredEvents events filters q, ev ∈ events) :=
  ⟨rfl, fun _ h => List.mem_of_mem_filter h⟩

/-- Witness for C7 at a concrete input. -/
theorem filteredEvents_pure_witness :
    let e : EventRec := ⟨1, "Dentist", "", "reminder", 0, 1⟩
    filteredEvents [e] initialFilters "" = filteredEvents [e] initialFilters "" ∧
    (∀ ev ∈ filteredEvents [e] initialFilters "", ev ∈ [e]) :=
  filteredEvents_pure [⟨1, "Dentist", "", "reminder", 0, 1⟩] initialFilters ""

/-- Reading a structure flag through the string lookup used by the
projection. -/
def lookupFilter (f : Filters) (t : TypeKey) : Bool :=
  filterFlag f t.key

/-- **C8.** The filter state maps the three type keys to booleans, all
initially `true`; toggling a type flips exactly that type's flag and
leaves the other flags unchanged. -/
theorem toggleFilter_spec :
    (∀ t : TypeKey, lookupFilter initialFilters t = true) ∧
    (∀ (f : Filters) (t : TypeKey),
      lookupFilter (toggleFilter f t) t = !(lookupFilter f t) ∧
      (∀ t' : TypeKey, t' ≠ t → lookupFilter (toggleFilter f t) t' = lookupFilter f t')) := by
  constructor
  · intro t; cases t <;> rfl
  · intro f t
    constructor
    · cases t <;> rfl
    · intro t' hne
      cases t <;> cases t' <;> first
        | exact absurd rfl hne
        | rfl

/-- Witness for C8: toggling `plan` flips only the `plan` flag. -/
theorem toggleFilter_spec_witness :
    lookupFilter (toggleFilter initialFilters .plan) .plan =
      !(lookupFilter initialFilters .plan) ∧
    lookupFilter (toggleFilter initialFilters .plan) .reminder =
      lookupFilter initialFilters .reminder :=
  ⟨(toggleFilter_spec.2 initialFilters .plan).1,
   (toggleFilter_spec.2 initialFilters .plan).2 .reminder (by decide)⟩

/-- **C9.** A record whose `type` is none of the three declared keys is
never in the projection output: `filters[ev.type]` is `undefined`,
which is falsy, so the record is dropped for every filter state and
query. -/
theorem unknownType_never_shown (events : List EventRec) (filters : Filters) (q : String)
    (ev : EventRec) (h1 : ev.type ≠ "reminder") (h2 : ev.type ≠ "plan")
    (h3 : ev.type ≠ "other") :
    ev ∉ filteredEvents events filters q := by
  intro hmem
  rw [filteredEvents, List.mem_filter, eventKept_eq_true_iff] at hmem
  have : filterFlag filters ev.type = false := by
    unfold filterFlag
    simp [h1, h2, h3]
  simp [this] at hmem

/-- Witness for C9: a `"meeting"`-typed record is excluded even with
all flags on and a blank query. -/
theorem unknownType_never_shown_witness :
    let e : EventRec := ⟨1, "Standup", "", "meeting", 0, 1⟩
    e ∉ filteredEvents [e] initialFilters "" :=
  unknownType_never_shown [⟨1, "Standup", "", "meeting", 0, 1⟩] initialFilters ""
    ⟨1, "Standup", "", "meeting", 0, 1⟩ (by decide) (by decide) (by decide)

/-- The data bound to the event-creation form (`formData` in
`src/App.js`). By submit time `start`/`end` hold date values (the
`datetime-local` inputs and slot selection store `Date`s), modelled as
epoch milliseconds. -/
structure FormData where
  title : String
  description : String
  type : String
  start : Int
  end_ : Int
deriving DecidableEq, Repr

/-- Model of `handleSubmit` from `src/App.js`: builds
`{ id: Date.now(), ...formData }` and appends it with
`setEvents([...events, newEvent])`. `Date.now()` is passed in as the
`now` argument. -/
def handleSubmit (now : Int) (events : List EventRec) (fd : FormData) : List EventRec :=
  events ++ [{ id := now, title := fd.title, description := fd.description,
               type := fd.type, start := fd.start, end_ := fd.end_ }]

/-- **C4, counterexample.** If `Date.now()` returns a value equal to an
existing record's `id` (two submissions in the same millisecond), the
freshly generated `id` duplicates a prior one: uniqueness is not
unconditional. -/
theorem handleSubmit_id_clash :
    let e : EventRec := ⟨5, "Dentist", "", "reminder", 0, 1⟩
    let fd : FormData := ⟨"Trip", "", "plan", 10, 20⟩
    (handleSubmit 5 [e] fd).map EventRec.id = [5, 5] ∧
    ¬ (((handleSubmit 5 [e] fd).map EventRec.id).Nodup) := by
  decide

/-- **C4, amended.** Submitting the form always grows the store from N
to N+1, appending one record whose `id` is the creation timestamp; and
provided that timestamp differs from every existing `id` (distinct
`Date.now()` values), the new `id` is unique and `id`-uniqueness is
preserved. -/
theorem handleSubmit_spec (now : Int) (events : List EventRec) (fd : FormData)
    (hfresh : now ∉ events.map EventRec.id) :
    (handleSubmit now events fd).length = events.length + 1 ∧
    (handleSubmit now events fd).map EventRec.id = events.map EventRec.id ++ [now] ∧
    ((events.map EventRec.id).Nodup → ((handleSubmit now events fd).map EventRec.id).Nodup) := by
  refine ⟨by simp [handleSubmit], by simp [handleSubmit], fun hnd => ?_⟩
  simp only [handleSubmit, List.map_append, List.map_cons, List.map_nil]
  rw [List.nodup_append]
  exact ⟨hnd, List.nodup_singleton now, by simpa using fun h => hfresh h⟩

/-- Witness for C4 (amended) at a concrete store and timestamp. -/
theorem handleSubmit_spec_witness :
    let e : EventRec := ⟨5, "Dentist", "", "reminder", 0, 1⟩
    let fd : FormData := ⟨"Trip", "", "plan", 10, 20⟩
    (handleSubmit 6 [e] fd).length = 2 ∧
    (handleSubmit 6 [e] fd).map EventRec.id = [5] ++ [6] ∧
    (([(5 : Int)]).Nodup → ((handleSubmit 6 [e] fd).map EventRec.id).Nodup) :=
  handleSubmit_spec 6 [⟨5, "Dentist", "", "reminder", 0, 1⟩] ⟨"Trip", "", "plan", 10, 20⟩
    (by decide)

/-- The slice of component state touched by `removeEvent`: the event
store and the currently selected event (`selectedEvent`). -/
structure AppState where
  events : List EventRec
  selectedEvent : Option EventRec
deriving DecidableEq, Repr

/-- Model of `removeEvent` from `src/App.js`:
`setEvents(prev => prev.filter(ev => ev.id !== id)); setSelectedEvent(null)`. -/
def removeEvent (s : AppState) (id : Int) : AppState :=
  { events := s.events.filter (fun ev => ev.id != id),
    selectedEvent := none }

/-- **C5, counterexample.** With two records sharing `id` 1 (reachable
via same-millisecond submissions), `remove(1)` deletes both: the store
shrinks from 2 to 0, not to N-1 = 1. -/
theorem removeEvent_removes_duplicates :
    let e1 : EventRec := ⟨1, "A", "", "plan", 0, 1⟩
    let e2 : EventRec := ⟨1, "B", "", "plan", 2, 3⟩
    let s : AppState := ⟨[e1, e2], none⟩
    (1 : Int) ∈ s.events.map EventRec.id ∧ s.events.length = 2 ∧
    (removeEvent s 1).events.length = 0 := by
  decide

theorem filter_ne_id_length (id : Int) :
    ∀ events : List EventRec, (events.map EventRec.id).Nodup →
      id ∈ events.map EventRec.id →
      (events.filter (fun ev => ev.id != id)).length + 1 = events.length := by
  intro events
  induction events with
  | nil => intro _ h; simp at h
  | cons e es ih =>
    intro hnd hmem
    simp only [List.map_cons, List.nodup_cons] at hnd
    by_cases he : e.id = id
    · have hout : es.filter (fun ev => ev.id != id) = es := by
        rw [List.filter_eq_self]
        intro ev hev
        simp only [bne_iff_ne, ne_eq]
        intro hc
        exact hnd.1 (he ▸ hc ▸ List.mem_map_of_mem EventRec.id hev)
      simp [List.filter_cons, he, hout]
    · have hmem' : id ∈ es.map EventRec.id := by
        rcases List.mem_cons.mp hmem with h | h
        · exact absurd h.symm he
        · exact h
      simp only [List.filter_cons, bne_iff_ne, ne_eq, he, not_false_eq_true, if_pos,
        List.length_cons]
      have := ih hnd.2 hmem'
      omega

/-- **C5, amended.** On a store whose `id`s are pairwise distinct (the
intended invariant): if a record with the given `id` is present,
`remove(id)` yields a store of size N-1 with no record carrying that
`id`; if absent, the store is unchanged. (Without distinctness the
filter removes every record matching the `id`, so a store with
duplicated `id`s can shrink by more than one.) -/
theorem removeEvent_spec (s : AppState) (id : Int)
    (hnd : (s.events.map EventRec.id).Nodup) :
    (id ∈ s.events.map EventRec.id →
      (removeEvent s id).events.length + 1 = s.events.length ∧
      ∀ ev ∈ (removeEvent s id).events, ev.id ≠ id) ∧
    (id ∉ s.events.map EventRec.id → (removeEvent s id).events = s.events) := by
  constructor
  · intro hmem
    refine ⟨filter_ne_id_length id s.events hnd hmem, fun ev hev => ?_⟩
    have := List.of_mem_filter hev
    simpa [bne_iff_ne] using this
  · intro habs
    simp only [removeEvent]
    rw [List.filter_eq_self]
    intro ev hev
    simp only [bne_iff_ne, ne_eq]
    intro hc
    exact habs (hc ▸ List.mem_map_of_mem EventRec.id hev)

/-- Witness for C5 (amended): removing the present `id` 1 from a
2-element store, and removing the absent `id` 7. -/
theorem removeEvent_spec_witness :
    let e1 : EventRec := ⟨1, "A", "", "plan", 0, 1⟩
    let e2 : EventRec := ⟨2, "B", "", "plan", 2, 3⟩
    let s : AppState := ⟨[e1, e2], none⟩
    (((1 : Int) ∈ s.events.map EventRec.id →
      (removeEvent s 1).events.length + 1 = s.events.length ∧
      ∀ ev ∈ (removeEvent s 1).events, ev.id ≠ 1) ∧
    ((1 : Int) ∉ s.events.map EventRec.id → (removeEvent s 1).events = s.events)) ∧
    ((7 : Int) ∉ s.events.map EventRec.id → (removeEvent s 7).events = s.events) :=
  ⟨removeEvent_spec ⟨[⟨1, "A", "", "plan", 0, 1⟩, ⟨2, "B", "", "plan", 2, 3⟩], none⟩ 1
      (by decide),
   (removeEvent_spec ⟨[⟨1, "A", "", "plan", 0, 1⟩, ⟨2, "B", "", "plan", 2, 3⟩], none⟩ 7
      (by decide)).2⟩

/-- **C10.** `removeEvent` resets the selected-event reference to
`null` unconditionally, whatever the state and whatever the `id`
argument (present, absent, or unrelated to the selection). -/
theorem removeEvent_clears_selection (s : AppState) (id : Int) :
    (removeEvent s id).selectedEvent = none :=
  rfl

/-- The view-controller state of `src/App.js`: the current calendar
view, the `zooming` animation flag, and the scheduled
`setTimeout` callbacks still pending, each recorded as its delay in
milliseconds together with the view it will commit. -/
structure ViewState where
  view : String
  zooming : Bool
  pending : List (Nat × String)
deriving DecidableEq, Repr

/-- Model of `handleViewChange` from `src/App.js`: if the requested view equals
the current one, return unchanged (no flag change, no timer);
otherwise set `zooming` immediately and schedule a 150 ms timer that
will commit the new view. -/
def handleViewChange (s : ViewState) (newView : String) : ViewState :=
  if s.view = newView then s
  else { s with zooming := true, pending := s.pending ++ [(150, newView)] }

/-- The body of the scheduled `setTimeout` callback firing after its
delay: `setView(newView); setZooming(false)`. -/
def fireViewTimer (s : ViewState) (t : Nat × String) : ViewState :=
  { view := t.2, zooming := false, pending := s.pending.erase t }

/-- **C6.** Requesting the current view is a no-op (no flag change, no
timer scheduled). Requesting a different view sets the transitioning
flag immediately while the view value stays unchanged, schedules
exactly one timer with the fixed 150 ms delay, and only when that timer
fires does the view become the requested one with the flag cleared. -/
theorem handleViewChange_spec (s : ViewState) (v' : String) :
    (s.view = v' → handleViewChange s v' = s) ∧
    (s.view ≠ v' →
      (handleViewChange s v').zooming = true ∧
      (handleViewChange s v').view = s.view ∧
      (handleViewChange s v').pending = s.pending ++ [(150, v')] ∧
      (fireViewTimer (handleViewChange s v') (150, v')).view = v' ∧
      (fireViewTimer (handleViewChange s v') (150, v')).zooming = false) := by
  constructor
  · intro h
    simp [handleViewChange, h]
  · intro h
    simp [handleViewChange, fireViewTimer, h]

/-- Witness for C6: switching from "month" to "week", and re-requesting
"month" while on "month". -/
theorem handleViewChange_spec_witness :
    let s : ViewState := ⟨"month", false, []⟩
    (s.view = "month" → handleViewChange s "month" = s) ∧
    (s.view ≠ "week" →
      (handleViewChange s "week").zooming = true ∧
      (handleViewChange s "week").view = s.view ∧
      (handleViewChange s "week").pending = s.pending ++ [(150, "week")] ∧
      (fireViewTimer (handleViewChange s "week") (150, "week")).view = "week" ∧
      (fireViewTimer (handleViewChange s "week") (150, "week")).zooming = false) :=
  ⟨(handleViewChange_spec ⟨"month", false, []⟩ "month").1,
   (handleViewChange_spec ⟨"month", false, []⟩ "week").2⟩

/-- Epoch day number to proleptic-Gregorian `(year, month, day)`:
Euclidean (floor) division and remainder throughout. -/
def civilFromDays (z : Int) : Int × Int × Int :=
  let era := (z + 719468) / 146097
  let doe := (z + 719468) % 146097
  let yoe := (doe - doe / 1460 + doe / 36524 - doe / 146096) / 365
  let doy := doe - (365 * yoe + yoe / 4 - yoe / 100)
  let mp := (5 * doy + 2) / 153
  let d := doy - (153 * mp + 2) / 5 + 1
  let m := mp + (if mp < 10 then 3 else -9)
  (yoe + era * 400 + (if m ≤ 2 then 1 else 0), m, d)

/-- Proleptic-Gregorian `(year, month, day)` to epoch day number. -/
def daysFromCivil (y m d : Int) : Int :=
  let ys := y - (if m ≤ 2 then 1 else 0)
  let era := ys / 400
  let yoe := ys - era * 400
  let doy := (153 * (if m > 2 then m - 3 else m + 9) + 2) / 5 + d - 1
  let doe := yoe * 365 + yoe / 4 - yoe / 100 + doy
  era * 146097 + doe - 719468


theorem int_div_decomp (x k : Int) (hk : 0 < k) :
    ∃ q r, x = k * q + r ∧ 0 ≤ r ∧ r < k :=
  ⟨x / k, x % k, (Int.ediv_add_emod x k).symm,
   Int.emod_nonneg x (ne_of_gt hk), Int.emod_lt_of_pos x hk⟩

theorem eraYear_core (doc c qs rs yoc rt a2 ra2 : Int)
    (hd0 : 0 ≤ doc) (hd1 : doc < 36524) (hc0 : 0 ≤ c) (hc1 : c ≤ 3)
    (hqs : doc + 24 * c = 1460 * qs + rs) (hrs : 0 ≤ rs) (hrs' : rs < 1460)
    (hyoc : doc - qs = 365 * yoc + rt) (hrt : 0 ≤ rt) (hrt' : rt < 365)
    (ha2 : yoc = 4 * a2 + ra2) (hra2 : 0 ≤ ra2) (hra2' : ra2 < 4) :
    0 ≤ yoc ∧ yoc ≤ 99 ∧ 365 * yoc + a2 ≤ doc ∧ doc ≤ 365 * yoc + a2 + 366 := by
  omega

set_option maxHeartbeats 1000000 in
theorem yearOfEra_bounds (doe : Int) (h0 : 0 ≤ doe) (h1 : doe < 146097) :
    0 ≤ (doe - doe / 1460 + doe / 36524 - doe / 146096) / 365 ∧
    (doe - doe / 1460 + doe / 36524 - doe / 146096) / 365 ≤ 399 ∧
    365 * ((doe - doe / 1460 + doe / 36524 - doe / 146096) / 365) +
      ((doe - doe / 1460 + doe / 36524 - doe / 146096) / 365) / 4 -
      ((doe - doe / 1460 + doe / 36524 - doe / 146096) / 365) / 100 ≤ doe ∧
    doe ≤ 365 * ((doe - doe / 1460 + doe / 36524 - doe / 146096) / 365) +
      ((doe - doe / 1460 + doe / 36524 - doe / 146096) / 365) / 4 -
      ((doe - doe / 1460 + doe / 36524 - doe / 146096) / 365) / 100 + 366 := by
  by_cases hlast : doe = 146096
  · subst hlast; decide
  · obtain ⟨c, doc, hcd, hdoc0, hdoc1⟩ := int_div_decomp doe 36524 (by norm_num)
    obtain ⟨qs, rs, hqs, hrs0, hrs1⟩ := int_div_decomp (doc + 24 * c) 1460 (by norm_num)
    obtain ⟨yoc, rt, hyoc, hrt0, hrt1⟩ := int_div_decomp (doc - qs) 365 (by norm_num)
    obtain ⟨a2, ra2, ha2, hra0, hra1⟩ := int_div_decomp yoc 4 (by norm_num)
    have hcb : 0 ≤ c ∧ c ≤ 3 := by omega
    obtain ⟨hy0, hy1, hy2, hy3⟩ :=
      eraYear_core doc c qs rs yoc rt a2 ra2 hdoc0 hdoc1 hcb.1 hcb.2
        hqs hrs0 hrs1 hyoc hrt0 hrt1 ha2 hra0 hra1
    have h1460 : doe / 1460 = 25 * c + qs := by omega
    have hAval : (doe - doe / 1460 + doe / 36524 - doe / 146096) / 365 = 100 * c + yoc := by
      omega
    rw [hAval]
    have hj : (100 * c + yoc) / 4 = 25 * c + a2 := by omega
    have hk : (100 * c + yoc) / 100 = c := by omega
    rw [hj, hk]
    omega

set_option maxHeartbeats 1000000 in
theorem roundtrip_core (z era doe yoe doy mp w : Int)
    (hz : z + 719468 = 146097 * era + doe) (hdoe0 : 0 ≤ doe) (hdoe1 : doe < 146097)
    (hy0 : 0 ≤ yoe) (hy1 : yoe ≤ 399)
    (hdoy : doy = doe - (365 * yoe + yoe / 4 - yoe / 100))
    (hdoy0 : 0 ≤ doy) (hdoy1 : doy ≤ 366)
    (hmp : mp = (5 * doy + 2) / 153)
    (hw : w = (153 * mp + 2) / 5) :
    daysFromCivil (yoe + era * 400 + (if mp + (if mp < 10 then 3 else -9) ≤ 2 then 1 else 0))
      (mp + (if mp < 10 then 3 else -9)) (doy - w + 1) = z := by
  have hmp0 : 0 ≤ mp := by omega
  have hmp1 : mp ≤ 11 := by omega
  unfold daysFromCivil
  simp only
  split_ifs <;> first
    | omega
    | (have e1 : yoe + era * 400 + 0 - 0 = yoe + era * 400 := by ring
       rw [e1]
       have e2 : (yoe + era * 400) / 400 = era := by omega
       rw [e2]
       have e3 : yoe + era * 400 - era * 400 = yoe := by ring
       rw [e3]
       have e4 : mp + 3 - 3 = mp := by ring
       rw [e4]
       omega)
    | (have e1 : yoe + era * 400 + 1 - 1 = yoe + era * 400 := by ring
       rw [e1]
       have e2 : (yoe + era * 400) / 400 = era := by omega
       rw [e2]
       have e3 : yoe + era * 400 - era * 400 = yoe := by ring
       rw [e3]
       have e4 : mp + -9 + 9 = mp := by ring
       rw [e4]
       omega)

set_option maxHeartbeats 1000000 in
theorem daysFromCivil_civilFromDays (z : Int) :
    daysFromCivil (civilFromDays z).1 (civilFromDays z).2.1 (civilFromDays z).2.2 = z := by
  have hy := yearOfEra_bounds ((z + 719468) % 146097)
    (Int.emod_nonneg _ (by norm_num)) (Int.emod_lt_of_pos _ (by norm_num))
  refine roundtrip_core z ((z + 719468) / 146097) ((z + 719468) % 146097)
    (((z + 719468) % 146097 - (z + 719468) % 146097 / 1460 + (z + 719468) % 146097 / 36524 -
        (z + 719468) % 146097 / 146096) / 365)
    _ _ _
    (by omega)
    (Int.emod_nonneg _ (by norm_num)) (Int.emod_lt_of_pos _ (by norm_num))
    hy.1 hy.2.1
    rfl
    (by omega) (by omega)
    rfl
    rfl

/-- Numeric value of a decimal digit character. -/
def dval (c : Char) : Nat :=
  c.toNat - 48

/-- Two fixed-width decimal digits (JavaScript's zero-padded fields). -/
def pad2 (n : Nat) : List Char :=
  [Nat.digitChar (n / 10 % 10), Nat.digitChar (n % 10)]

/-- Three fixed-width decimal digits (milliseconds field). -/
def pad3 (n : Nat) : List Char :=
  [Nat.digitChar (n / 100 % 10), Nat.digitChar (n / 10 % 10), Nat.digitChar (n % 10)]

/-- Four fixed-width decimal digits (years 0–9999). -/
def pad4 (n : Nat) : List Char :=
  [Nat.digitChar (n / 1000 % 10), Nat.digitChar (n / 100 % 10),
   Nat.digitChar (n / 10 % 10), Nat.digitChar (n % 10)]

/-- Six fixed-width decimal digits (expanded years). -/
def pad6 (n : Nat) : List Char :=
  [Nat.digitChar (n / 100000 % 10), Nat.digitChar (n / 10000 % 10),
   Nat.digitChar (n / 1000 % 10), Nat.digitChar (n / 100 % 10),
   Nat.digitChar (n / 10 % 10), Nat.digitChar (n % 10)]

/-- Model of `Date.prototype.toISOString` (via `Date.prototype.toJSON`):
`YYYY-MM-DDTHH:mm:ss.sssZ`, with a `±YYYYYY` expanded year outside
0–9999. The argument is the date's epoch-millisecond value. -/
def toISOChars (ms : Int) : List Char :=
  let days := ms / 86400000
  let tod := ms % 86400000
  let y := (civilFromDays days).1
  let m := (civilFromDays days).2.1
  let d := (civilFromDays days).2.2
  let yearPart :=
    if 0 ≤ y ∧ y ≤ 9999 then pad4 y.toNat
    else if y < 0 then '-' :: pad6 (-y).toNat
    else '+' :: pad6 y.toNat
  yearPart ++ '-' :: pad2 m.toNat ++ '-' :: pad2 d.toNat ++
    'T' :: pad2 (tod / 3600000).toNat ++ ':' :: pad2 (tod % 3600000 / 60000).toNat ++
    ':' :: pad2 (tod % 60000 / 1000).toNat ++ '.' :: pad3 (tod % 1000).toNat ++ ['Z']

/-- String form of `toISOChars`. -/
def toISOString (ms : Int) : String :=
  String.mk (toISOChars ms)

/-- Tail of the ISO parse after the year: `-MM-DDTHH:mm:ss.sssZ`,
validating separators, digits and field ranges, and recombining via the
day-number conversion (ECMAScript `MakeDay`/`MakeDate`). -/
def parseISOTail (y : Int) (cs : List Char) : Option Int :=
  match cs with
  | [s1, m1, m2, s2, d1, d2, s3, g1, g2, s4, i1, i2, s5, x1, x2, s6, f1, f2, f3, s7] =>
    if s1 = '-' ∧ m1.isDigit = true ∧ m2.isDigit = true ∧ s2 = '-' ∧
       d1.isDigit = true ∧ d2.isDigit = true ∧ s3 = 'T' ∧
       g1.isDigit = true ∧ g2.isDigit = true ∧ s4 = ':' ∧
       i1.isDigit = true ∧ i2.isDigit = true ∧ s5 = ':' ∧
       x1.isDigit = true ∧ x2.isDigit = true ∧ s6 = '.' ∧
       f1.isDigit = true ∧ f2.isDigit = true ∧ f3.isDigit = true ∧ s7 = 'Z' then
      let m : Int := (10 * dval m1 + dval m2 : Nat)
      let d : Int := (10 * dval d1 + dval d2 : Nat)
      let hh : Int := (10 * dval g1 + dval g2 : Nat)
      let mi : Int := (10 * dval i1 + dval i2 : Nat)
      let ss : Int := (10 * dval x1 + dval x2 : Nat)
      let ff : Int := (100 * dval f1 + 10 * dval f2 + dval f3 : Nat)
      if 1 ≤ m ∧ m ≤ 12 ∧ 1 ≤ d ∧ d ≤ 31 ∧ hh ≤ 23 ∧ mi ≤ 59 ∧ ss ≤ 59 then
        some (daysFromCivil y m d * 86400000 + hh * 3600000 + mi * 60000 + ss * 1000 + ff)
      else none
    else none
  | _ => none

/-- Four-digit year head of an ISO string. -/
def parseISOYear4 (cs : List Char) : Option Int :=
  match cs with
  | y1 :: y2 :: y3 :: y4 :: rest =>
    if y1.isDigit = true ∧ y2.isDigit = true ∧ y3.isDigit = true ∧ y4.isDigit = true then
      parseISOTail ((1000 * dval y1 + 100 * dval y2 + 10 * dval y3 + dval y4 : Nat)) rest
    else none
  | _ => none

/-- Six-digit expanded year after an explicit sign. -/
def parseISOYear6 (sign : Int) (cs : List Char) : Option Int :=
  match cs with
  | y1 :: y2 :: y3 :: y4 :: y5 :: y6 :: rest =>
    if y1.isDigit = true ∧ y2.isDigit = true ∧ y3.isDigit = true ∧ y4.isDigit = true ∧
       y5.isDigit = true ∧ y6.isDigit = true then
      parseISOTail (sign * ((100000 * dval y1 + 10000 * dval y2 + 1000 * dval y3 +
        100 * dval y4 + 10 * dval y5 + dval y6 : Nat))) rest
    else none
  | _ => none

/-- Model of `new Date(s)` restricted to the ISO date-time format that
`toISOString` emits (the only strings the reviver ever sees): returns
the epoch-millisecond value, or `none` for a string it rejects
(JavaScript's `Invalid Date`). -/
def parseISOChars (cs : List Char) : Option Int :=
  match cs with
  | [] => none
  | c :: rest =>
    if c = '+' then parseISOYear6 1 rest
    else if c = '-' then parseISOYear6 (-1) rest
    else parseISOYear4 (c :: rest)

theorem digitChar_spec (n : Nat) (h : n < 10) :
    (Nat.digitChar n).isDigit = true ∧ dval (Nat.digitChar n) = n ∧
    Nat.digitChar n ≠ '+' ∧ Nat.digitChar n ≠ '-' := by
  interval_cases n <;> exact ⟨rfl, rfl, by decide, by decide⟩

theorem parseISOTail_eval (y : Int) (m1 m2 d1 d2 g1 g2 i1 i2 x1 x2 f1 f2 f3 : Nat)
    (hm1 : m1 < 10) (hm2 : m2 < 10) (hd1 : d1 < 10) (hd2 : d2 < 10)
    (hg1 : g1 < 10) (hg2 : g2 < 10) (hi1 : i1 < 10) (hi2 : i2 < 10)
    (hx1 : x1 < 10) (hx2 : x2 < 10) (hf1 : f1 < 10) (hf2 : f2 < 10) (hf3 : f3 < 10)
    (hm : 1 ≤ 10 * m1 + m2) (hm' : 10 * m1 + m2 ≤ 12)
    (hd : 1 ≤ 10 * d1 + d2) (hd' : 10 * d1 + d2 ≤ 31)
    (hhh : 10 * g1 + g2 ≤ 23) (hmi : 10 * i1 + i2 ≤ 59) (hss : 10 * x1 + x2 ≤ 59) :
    parseISOTail y ['-', Nat.digitChar m1, Nat.digitChar m2, '-', Nat.digitChar d1,
      Nat.digitChar d2, 'T', Nat.digitChar g1, Nat.digitChar g2, ':', Nat.digitChar i1,
      Nat.digitChar i2, ':', Nat.digitChar x1, Nat.digitChar x2, '.', Nat.digitChar f1,
      Nat.digitChar f2, Nat.digitChar f3, 'Z'] =
      some (daysFromCivil y ((10 * m1 + m2 : Nat) : Int) ((10 * d1 + d2 : Nat) : Int) * 86400000 +
        ((10 * g1 + g2 : Nat) : Int) * 3600000 + ((10 * i1 + i2 : Nat) : Int) * 60000 +
        ((10 * x1 + x2 : Nat) : Int) * 1000 + ((100 * f1 + 10 * f2 + f3 : Nat) : Int)) := by
  obtain ⟨qm1, vm1, _, _⟩ := digitChar_spec m1 hm1
  obtain ⟨qm2, vm2, _, _⟩ := digitChar_spec m2 hm2
  obtain ⟨qd1, vd1, _, _⟩ := digitChar_spec d1 hd1
  obtain ⟨qd2, vd2, _, _⟩ := digitChar_spec d2 hd2
  obtain ⟨qg1, vg1, _, _⟩ := digitChar_spec g1 hg1
  obtain ⟨qg2, vg2, _, _⟩ := digitChar_spec g2 hg2
  obtain ⟨qi1, vi1, _, _⟩ := digitChar_spec i1 hi1
  obtain ⟨qi2, vi2, _, _⟩ := digitChar_spec i2 hi2
  obtain ⟨qx1, vx1, _, _⟩ := digitChar_spec x1 hx1
  obtain ⟨qx2, vx2, _, _⟩ := digitChar_spec x2 hx2
  obtain ⟨qf1, vf1, _, _⟩ := digitChar_spec f1 hf1
  obtain ⟨qf2, vf2, _, _⟩ := digitChar_spec f2 hf2
  obtain ⟨qf3, vf3, _, _⟩ := digitChar_spec f3 hf3
  simp only [parseISOTail]
  rw [if_pos (by
    simp [qm1, qm2, qd1, qd2, qg1, qg2, qi1, qi2, qx1, qx2, qf1, qf2, qf3])]
  simp only [vm1, vm2, vd1, vd2, vg1, vg2, vi1, vi2, vx1, vx2, vf1, vf2, vf3]
  rw [if_pos (by
    refine ⟨?_, ?_, ?_, ?_, ?_, ?_, ?_⟩ <;> [skip; skip; skip; skip; skip; skip; skip] <;>
      push_cast <;> omega)]

theorem parseISOYear4_eval (y1 y2 y3 y4 : Nat)
    (h1 : y1 < 10) (h2 : y2 < 10) (h3 : y3 < 10) (h4 : y4 < 10) (rest : List Char) :
    parseISOYear4 (Nat.digitChar y1 :: Nat.digitChar y2 :: Nat.digitChar y3 ::
      Nat.digitChar y4 :: rest) =
      parseISOTail ((1000 * y1 + 100 * y2 + 10 * y3 + y4 : Nat) : Int) rest := by
  obtain ⟨q1, v1, _, _⟩ := digitChar_spec y1 h1
  obtain ⟨q2, v2, _, _⟩ := digitChar_spec y2 h2
  obtain ⟨q3, v3, _, _⟩ := digitChar_spec y3 h3
  obtain ⟨q4, v4, _, _⟩ := digitChar_spec y4 h4
  simp only [parseISOYear4]
  rw [if_pos (by simp [q1, q2, q3, q4])]
  simp only [v1, v2, v3, v4]

theorem parseISOYear6_eval (sign : Int) (y1 y2 y3 y4 y5 y6 : Nat)
    (h1 : y1 < 10) (h2 : y2 < 10) (h3 : y3 < 10) (h4 : y4 < 10) (h5 : y5 < 10) (h6 : y6 < 10)
    (rest : List Char) :
    parseISOYear6 sign (Nat.digitChar y1 :: Nat.digitChar y2 :: Nat.digitChar y3 ::
      Nat.digitChar y4 :: Nat.digitChar y5 :: Nat.digitChar y6 :: rest) =
      parseISOTail (sign * ((100000 * y1 + 10000 * y2 + 1000 * y3 + 100 * y4 + 10 * y5 + y6 :
        Nat) : Int)) rest := by
  obtain ⟨q1, v1, _, _⟩ := digitChar_spec y1 h1
  obtain ⟨q2, v2, _, _⟩ := digitChar_spec y2 h2
  obtain ⟨q3, v3, _, _⟩ := digitChar_spec y3 h3
  obtain ⟨q4, v4, _, _⟩ := digitChar_spec y4 h4
  obtain ⟨q5, v5, _, _⟩ := digitChar_spec y5 h5
  obtain ⟨q6, v6, _, _⟩ := digitChar_spec y6 h6
  simp only [parseISOYear6]
  rw [if_pos (by simp [q1, q2, q3, q4, q5, q6])]
  simp only [v1, v2, v3, v4, v5, v6]

theorem parseISOChars_digit (c : Char) (rest : List Char) (h1 : c ≠ '+') (h2 : c ≠ '-') :
    parseISOChars (c :: rest) = parseISOYear4 (c :: rest) := by
  simp only [parseISOChars]
  rw [if_neg h1, if_neg h2]

theorem parseISOChars_plus (rest : List Char) :
    parseISOChars ('+' :: rest) = parseISOYear6 1 rest := rfl

theorem parseISOChars_minus (rest : List Char) :
    parseISOChars ('-' :: rest) = parseISOYear6 (-1) rest := by
  simp only [parseISOChars]
  rw [if_neg (by decide)]
  simp

set_option maxHeartbeats 1000000 in
theorem civilFromDays_md_ranges (z : Int) :
    1 ≤ (civilFromDays z).2.1 ∧ (civilFromDays z).2.1 ≤ 12 ∧
    1 ≤ (civilFromDays z).2.2 ∧ (civilFromDays z).2.2 ≤ 31 := by
  have hy := yearOfEra_bounds ((z + 719468) % 146097)
    (Int.emod_nonneg _ (by norm_num)) (Int.emod_lt_of_pos _ (by norm_num))
  unfold civilFromDays
  simp only
  split_ifs <;> omega

set_option maxHeartbeats 1000000 in
theorem civilFromDays_year_range (z : Int) (h0 : -100000000 ≤ z) (h1 : z ≤ 100000000) :
    -280000 ≤ (civilFromDays z).1 ∧ (civilFromDays z).1 ≤ 280000 := by
  have hy := yearOfEra_bounds ((z + 719468) % 146097)
    (Int.emod_nonneg _ (by norm_num)) (Int.emod_lt_of_pos _ (by norm_num))
  unfold civilFromDays
  simp only
  split_ifs <;> omega

set_option maxHeartbeats 2000000 in
theorem parseISO_toISO (ms : Int)
    (h0 : -8640000000000000 ≤ ms) (h1 : ms ≤ 8640000000000000) :
    parseISOChars (toISOChars ms) = some ms := by
  have hday : -100000000 ≤ ms / 86400000 ∧ ms / 86400000 ≤ 100000000 := by omega
  have hmd := civilFromDays_md_ranges (ms / 86400000)
  have hyr := civilFromDays_year_range (ms / 86400000) hday.1 hday.2
  have hrt := daysFromCivil_civilFromDays (ms / 86400000)
  have htod0 : 0 ≤ ms % 86400000 := Int.emod_nonneg _ (by norm_num)
  have htod1 : ms % 86400000 < 86400000 := Int.emod_lt_of_pos _ (by norm_num)
  unfold toISOChars
  simp only
  by_cases hy4 : 0 ≤ (civilFromDays (ms / 86400000)).1 ∧ (civilFromDays (ms / 86400000)).1 ≤ 9999
  · rw [if_pos hy4]
    simp only [pad4, pad2, pad3, List.cons_append, List.nil_append]
    rw [parseISOChars_digit _ _
      (digitChar_spec _ (Nat.mod_lt _ (by norm_num))).2.2.1
      (digitChar_spec _ (Nat.mod_lt _ (by norm_num))).2.2.2]
    rw [parseISOYear4_eval _ _ _ _ (Nat.mod_lt _ (by norm_num)) (Nat.mod_lt _ (by norm_num))
      (Nat.mod_lt _ (by norm_num)) (Nat.mod_lt _ (by norm_num)) _]
    rw [parseISOTail_eval _ _ _ _ _ _ _ _ _ _ _ _ _ _
      (Nat.mod_lt _ (by norm_num)) (Nat.mod_lt _ (by norm_num)) (Nat.mod_lt _ (by norm_num))
      (Nat.mod_lt _ (by norm_num)) (Nat.mod_lt _ (by norm_num)) (Nat.mod_lt _ (by norm_num))
      (Nat.mod_lt _ (by norm_num)) (Nat.mod_lt _ (by norm_num)) (Nat.mod_lt _ (by norm_num))
      (Nat.mod_lt _ (by norm_num)) (Nat.mod_lt _ (by norm_num)) (Nat.mod_lt _ (by norm_num))
      (Nat.mod_lt _ (by norm_num))
      (by omega) (by omega) (by omega) (by omega) (by omega) (by omega) (by omega)]
    have hyv : ((1000 * ((civilFromDays (ms / 86400000)).1.toNat / 1000 % 10) +
        100 * ((civilFromDays (ms / 86400000)).1.toNat / 100 % 10) +
        10 * ((civilFromDays (ms / 86400000)).1.toNat / 10 % 10) +
        (civilFromDays (ms / 86400000)).1.toNat % 10 : Nat) : Int) =
        (civilFromDays (ms / 86400000)).1 := by omega
    have hmv : ((10 * ((civilFromDays (ms / 86400000)).2.1.toNat / 10 % 10) +
        (civilFromDays (ms / 86400000)).2.1.toNat % 10 : Nat) : Int) =
        (civilFromDays (ms / 86400000)).2.1 := by omega
    have hdv : ((10 * ((civilFromDays (ms / 86400000)).2.2.toNat / 10 % 10) +
        (civilFromDays (ms / 86400000)).2.2.toNat % 10 : Nat) : Int) =
        (civilFromDays (ms / 86400000)).2.2 := by omega
    rw [hyv, hmv, hdv, hrt]
    have hfin : ms / 86400000 * 86400000 +
        ((10 * ((ms % 86400000 / 3600000).toNat / 10 % 10) +
          (ms % 86400000 / 3600000).toNat % 10 : Nat) : Int) * 3600000 +
        ((10 * ((ms % 86400000 % 3600000 / 60000).toNat / 10 % 10) +
          (ms % 86400000 % 3600000 / 60000).toNat % 10 : Nat) : Int) * 60000 +
        ((10 * ((ms % 86400000 % 60000 / 1000).toNat / 10 % 10) +
          (ms % 86400000 % 60000 / 1000).toNat % 10 : Nat) : Int) * 1000 +
        ((100 * ((ms % 86400000 % 1000).toNat / 100 % 10) +
          10 * ((ms % 86400000 % 1000).toNat / 10 % 10) +
          (ms % 86400000 % 1000).toNat % 10 : Nat) : Int) = ms := by omega
    rw [hfin]
  · rw [if_neg hy4]
    by_cases hneg : (civilFromDays (ms / 86400000)).1 < 0
    · rw [if_pos hneg]
      simp only [pad6, pad2, pad3, List.cons_append, List.nil_append]
      rw [parseISOChars_minus]
      rw [parseISOYear6_eval _ _ _ _ _ _ _ (Nat.mod_lt _ (by norm_num))
        (Nat.mod_lt _ (by norm_num)) (Nat.mod_lt _ (by norm_num)) (Nat.mod_lt _ (by norm_num))
        (Nat.mod_lt _ (by norm_num)) (Nat.mod_lt _ (by norm_num)) _]
      rw [parseISOTail_eval _ _ _ _ _ _ _ _ _ _ _ _ _ _
        (Nat.mod_lt _ (by norm_num)) (Nat.mod_lt _ (by norm_num)) (Nat.mod_lt _ (by norm_num))
        (Nat.mod_lt _ (by norm_num)) (Nat.mod_lt _ (by norm_num)) (Nat.mod_lt _ (by norm_num))
        (Nat.mod_lt _ (by norm_num)) (Nat.mod_lt _ (by norm_num)) (Nat.mod_lt _ (by norm_num))
        (Nat.mod_lt _ (by norm_num)) (Nat.mod_lt _ (by norm_num)) (Nat.mod_lt _ (by norm_num))
        (Nat.mod_lt _ (by norm_num))
        (by omega) (by omega) (by omega) (by omega) (by omega) (by omega) (by omega)]
      have hyv : (-1 : Int) * ((100000 * ((-(civilFromDays (ms / 86400000)).1).toNat / 100000 % 10) +
          10000 * ((-(civilFromDays (ms / 86400000)).1).toNat / 10000 % 10) +
          1000 * ((-(civilFromDays (ms / 86400000)).1).toNat / 1000 % 10) +
          100 * ((-(civilFromDays (ms / 86400000)).1).toNat / 100 % 10) +
          10 * ((-(civilFromDays (ms / 86400000)).1).toNat / 10 % 10) +
          (-(civilFromDays (ms / 86400000)).1).toNat % 10 : Nat) : Int) =
          (civilFromDays (ms / 86400000)).1 := by omega
      have hmv : ((10 * ((civilFromDays (ms / 86400000)).2.1.toNat / 10 % 10) +
          (civilFromDays (ms / 86400000)).2.1.toNat % 10 : Nat) : Int) =
          (civilFromDays (ms / 86400000)).2.1 := by omega
      have hdv : ((10 * ((civilFromDays (ms / 86400000)).2.2.toNat / 10 % 10) +
          (civilFromDays (ms / 86400000)).2.2.toNat % 10 : Nat) : Int) =
          (civilFromDays (ms / 86400000)).2.2 := by omega
      rw [hyv, hmv, hdv, hrt]
      have hfin : ms / 86400000 * 86400000 +
          ((10 * ((ms % 86400000 / 3600000).toNat / 10 % 10) +
            (ms % 86400000 / 3600000).toNat % 10 : Nat) : Int) * 3600000 +
          ((10 * ((ms % 86400000 % 3600000 / 60000).toNat / 10 % 10) +
            (ms % 86400000 % 3600000 / 60000).toNat % 10 : Nat) : Int) * 60000 +
          ((10 * ((ms % 86400000 % 60000 / 1000).toNat / 10 % 10) +
            (ms % 86400000 % 60000 / 1000).toNat % 10 : Nat) : Int) * 1000 +
          ((100 * ((ms % 86400000 % 1000).toNat / 100 % 10) +
            10 * ((ms % 86400000 % 1000).toNat / 10 % 10) +
            (ms % 86400000 % 1000).toNat % 10 : Nat) : Int) = ms := by omega
      rw [hfin]
    · rw [if_neg hneg]
      simp only [pad6, pad2, pad3, List.cons_append, List.nil_append]
      rw [parseISOChars_plus]
      rw [parseISOYear6_eval _ _ _ _ _ _ _ (Nat.mod_lt _ (by norm_num))
        (Nat.mod_lt _ (by norm_num)) (Nat.mod_lt _ (by norm_num)) (Nat.mod_lt _ (by norm_num))
        (Nat.mod_lt _ (by norm_num)) (Nat.mod_lt _ (by norm_num)) _]
      rw [parseISOTail_eval _ _ _ _ _ _ _ _ _ _ _ _ _ _
        (Nat.mod_lt _ (by norm_num)) (Nat.mod_lt _ (by norm_num)) (Nat.mod_lt _ (by norm_num))
        (Nat.mod_lt _ (by norm_num)) (Nat.mod_lt _ (by norm_num)) (Nat.mod_lt _ (by norm_num))
        (Nat.mod_lt _ (by norm_num)) (Nat.mod_lt _ (by norm_num)) (Nat.mod_lt _ (by norm_num))
        (Nat.mod_lt _ (by norm_num)) (Nat.mod_lt _ (by norm_num)) (Nat.mod_lt _ (by norm_num))
        (Nat.mod_lt _ (by norm_num))
        (by omega) (by omega) (by omega) (by omega) (by omega) (by omega) (by omega)]
      have hyv : (1 : Int) * ((100000 * ((civilFromDays (ms / 86400000)).1.toNat / 100000 % 10) +
          10000 * ((civilFromDays (ms / 86400000)).1.toNat / 10000 % 10) +
          1000 * ((civilFromDays (ms / 86400000)).1.toNat / 1000 % 10) +
          100 * ((civilFromDays (ms / 86400000)).1.toNat / 100 % 10) +
          10 * ((civilFromDays (ms / 86400000)).1.toNat / 10 % 10) +
          (civilFromDays (ms / 86400000)).1.toNat % 10 : Nat) : Int) =
          (civilFromDays (ms / 86400000)).1 := by omega
      have hmv : ((10 * ((civilFromDays (ms / 86400000)).2.1.toNat / 10 % 10) +
          (civilFromDays (ms / 86400000)).2.1.toNat % 10 : Nat) : Int) =
          (civilFromDays (ms / 86400000)).2.1 := by omega
      have hdv : ((10 * ((civilFromDays (ms / 86400000)).2.2.toNat / 10 % 10) +
          (civilFromDays (ms / 86400000)).2.2.toNat % 10 : Nat) : Int) =
          (civilFromDays (ms / 86400000)).2.2 := by omega
      rw [hyv, hmv, hdv, hrt]
      have hfin : ms / 86400000 * 86400000 +
          ((10 * ((ms % 86400000 / 3600000).toNat / 10 % 10) +
            (ms % 86400000 / 3600000).toNat % 10 : Nat) : Int) * 3600000 +
          ((10 * ((ms % 86400000 % 3600000 / 60000).toNat / 10 % 10) +
            (ms % 86400000 % 3600000 / 60000).toNat % 10 : Nat) : Int) * 60000 +
          ((10 * ((ms % 86400000 % 60000 / 1000).toNat / 10 % 10) +
            (ms % 86400000 % 60000 / 1000).toNat % 10 : Nat) : Int) * 1000 +
          ((100 * ((ms % 86400000 % 1000).toNat / 100 % 10) +
            10 * ((ms % 86400000 % 1000).toNat / 10 % 10) +
            (ms % 86400000 % 1000).toNat % 10 : Nat) : Int) = ms := by omega
      rw [hfin]

/-- JSON values as produced by `JSON.parse` before revival. Numeric
literals with a fraction or exponent are kept as raw text
(`nonIntegral`): the repository only ever serializes integral numbers
(`id` timestamps), and non-integral values are floating point, outside
this model's scope. -/
inductive JVal where
  | null
  | bool (b : Bool)
  | num (n : Int)
  | nonIntegral (raw : String)
  | str (s : String)
  | arr (items : List JVal)
  | obj (fields : List (String × JVal))
deriving Repr

/-- JavaScript values after the reviver ran: JSON values plus `Date`
objects (valid dates carry their epoch milliseconds; `dateInvalid` is
an Invalid Date). -/
inductive RVal where
  | null
  | bool (b : Bool)
  | num (n : Int)
  | nonIntegral (raw : String)
  | str (s : String)
  | date (ms : Int)
  | dateInvalid
  | arr (items : List RVal)
  | obj (fields : List (String × RVal))
deriving Repr

/-- Model of `new Date(value)` as used by the reviver: an ISO string parses to
its millisecond value (else Invalid Date); a number is taken as epoch
milliseconds; other arguments are not produced by this app's data and
are modelled as Invalid Date. -/
def newDateOf : RVal → RVal
  | .str s => (parseISOChars s.data).elim .dateInvalid .date
  | .num n => .date n
  | _ => .dateInvalid

/-- The reviver passed to `JSON.parse` in `src/App.js`: keys `start`
and `end` are converted with `new Date(value)`; every other value is
passed through unchanged. -/
def dateReviver (key : String) (v : RVal) : RVal :=
  if key = "start" ∨ key = "end" then newDateOf v else v

/-- Decimal digits of a number, most significant first (JavaScript's
decimal string form of an array index). -/
def digitsOf (n : Nat) : List Char :=
  if h : n < 10 then [Nat.digitChar n]
  else digitsOf (n / 10) ++ [Nat.digitChar (n % 10)]
termination_by n
decreasing_by exact Nat.div_lt_self (by omega) (by norm_num)

/-- The property key under which `JSON.parse` presents array element
`i` to the reviver. -/
def indexKey (i : Nat) : String :=
  String.mk (digitsOf i)

mutual
/-- The recursive walk of `JSON.parse(text, reviver)`
(`InternalizeJSONProperty`): children are revived first, then the
reviver is applied to the node under its own property key. -/
def reviveVal (key : String) : JVal → RVal
  | .null => dateReviver key .null
  | .bool b => dateReviver key (.bool b)
  | .num n => dateReviver key (.num n)
  | .nonIntegral raw => dateReviver key (.nonIntegral raw)
  | .str s => dateReviver key (.str s)
  | .arr xs => dateReviver key (.arr (reviveItems 0 xs))
  | .obj fs => dateReviver key (.obj (reviveFields fs))

/-- Revive the elements of an array, index `i` onward. -/
def reviveItems (i : Nat) : List JVal → List RVal
  | [] => []
  | x :: xs => reviveVal (indexKey i) x :: reviveItems (i + 1) xs

/-- Revive the fields of an object under their own keys. -/
def reviveFields : List (String × JVal) → List (String × RVal)
  | [] => []
  | (k, v) :: fs => (k, reviveVal k v) :: reviveFields fs
end

theorem digitsOf_all_digit (n : Nat) : ∀ c ∈ digitsOf n, c.isDigit = true := by
  induction n using Nat.strong_induction_on with
  | _ n ih =>
    rw [digitsOf]
    split_ifs with h
    · intro c hc
      rw [List.mem_singleton] at hc
      subst hc
      exact (digitChar_spec n h).1
    · intro c hc
      rcases List.mem_append.mp hc with h1 | h2
      · exact ih (n / 10) (Nat.div_lt_self (by omega) (by norm_num)) c h1
      · rw [List.mem_singleton] at h2
        subst h2
        exact (digitChar_spec (n % 10) (Nat.mod_lt _ (by norm_num))).1

theorem indexKey_ne_start (i : Nat) : indexKey i ≠ "start" := by
  intro h
  have hd : digitsOf i = "start".data := congrArg String.data h
  have : 's' ∈ digitsOf i := by rw [hd]; decide
  have := digitsOf_all_digit i 's' this
  simp at this

theorem indexKey_ne_end (i : Nat) : indexKey i ≠ "end" := by
  intro h
  have hd : digitsOf i = "end".data := congrArg String.data h
  have : 'e' ∈ digitsOf i := by rw [hd]; decide
  have := digitsOf_all_digit i 'e' this
  simp at this

theorem dateReviver_other (key : String) (h1 : key ≠ "start") (h2 : key ≠ "end") (v : RVal) :
    dateReviver key v = v := by
  unfold dateReviver
  rw [if_neg]
  rintro (h | h) <;> [exact h1 h; exact h2 h]

theorem dateReviver_start (v : RVal) : dateReviver "start" v = newDateOf v := by
  unfold dateReviver
  rw [if_pos (Or.inl rfl)]

theorem dateReviver_end (v : RVal) : dateReviver "end" v = newDateOf v := by
  unfold dateReviver
  rw [if_pos (Or.inr rfl)]

/-- The valid JavaScript `Date` range (about 8.64e15 ms either side of the epoch). Every date the
app ever stores (from `Date.now()`, slot selection or the
`datetime-local` inputs) lies in this range. -/
def dateInRange (t : Int) : Prop :=
  -8640000000000000 ≤ t ∧ t ≤ 8640000000000000

instance (t : Int) : Decidable (dateInRange t) := by
  unfold dateInRange
  infer_instance

/-- Serialization of one event record by `JSON.stringify`: the object literal built in
`handleSubmit`, with `Date` fields serialized through `toJSON`
(ISO strings), in insertion order. -/
def eventToJSON (e : EventRec) : JVal :=
  .obj [("id", .num e.id), ("title", .str e.title), ("description", .str e.description),
        ("type", .str e.type), ("start", .str (toISOString e.start)),
        ("end", .str (toISOString e.end_))]

/-- Serialization `JSON.stringify(events)`: the form persisted under the
`calendarEvents` key. -/
def serializeEvents (events : List EventRec) : JVal :=
  .arr (events.map eventToJSON)

/-- Model of `JSON.parse(saved, reviver)` on an already-lexed JSON tree: revive
bottom-up, applying the reviver, finally at the root under key `""`. -/
def parseWithReviver (v : JVal) : RVal :=
  reviveVal "" v

/-- The in-memory value the store holds for a record after reload:
same fields, with `start`/`end` as `Date` values. -/
def eventAsLoaded (e : EventRec) : RVal :=
  .obj [("id", .num e.id), ("title", .str e.title), ("description", .str e.description),
        ("type", .str e.type), ("start", .date e.start), ("end", .date e.end_)]

theorem reviveVal_event (key : String) (hk1 : key ≠ "start") (hk2 : key ≠ "end")
    (e : EventRec) (h1 : dateInRange e.start) (h2 : dateInRange e.end_) :
    reviveVal key (eventToJSON e) = eventAsLoaded e := by
  have hs : parseISOChars (toISOString e.start).data = some e.start :=
    parseISO_toISO e.start h1.1 h1.2
  have he : parseISOChars (toISOString e.end_).data = some e.end_ :=
    parseISO_toISO e.end_ h2.1 h2.2
  simp only [eventToJSON, reviveVal, reviveFields]
  rw [dateReviver_other key hk1 hk2]
  rw [dateReviver_other "id" (by decide) (by decide)]
  rw [dateReviver_other "title" (by decide) (by decide)]
  rw [dateReviver_other "description" (by decide) (by decide)]
  rw [dateReviver_other "type" (by decide) (by decide)]
  rw [dateReviver_start, dateReviver_end]
  simp only [newDateOf, hs, he, Option.elim, eventAsLoaded]

theorem reviveItems_events (i : Nat) (events : List EventRec)
    (h : ∀ ev ∈ events, dateInRange ev.start ∧ dateInRange ev.end_) :
    reviveItems i (events.map eventToJSON) = events.map eventAsLoaded := by
  induction events generalizing i with
  | nil => rfl
  | cons e es ih =>
    simp only [List.map_cons, reviveItems]
    rw [reviveVal_event (indexKey i) (indexKey_ne_start i) (indexKey_ne_end i) e
      (h e (List.mem_cons_self e es)).1 (h e (List.mem_cons_self e es)).2]
    rw [ih (i + 1) (fun ev hev => h ev (List.mem_cons_of_mem e hev))]

theorem events_serialize_load_roundtrip (events : List EventRec)
    (h : ∀ ev ∈ events, dateInRange ev.start ∧ dateInRange ev.end_) :
    parseWithReviver (serializeEvents events) = .arr (events.map eventAsLoaded) := by
  unfold parseWithReviver serializeEvents
  simp only [reviveVal]
  rw [dateReviver_other "" (by decide) (by decide)]
  rw [reviveItems_events 0 events h]

/-- Skip JSON insignificant whitespace. -/
def skipWs : List Char → List Char
  | [] => []
  | c :: cs => if c = ' ' ∨ c = '\t' ∨ c = '\n' ∨ c = '\r' then skipWs cs else c :: cs

/-- Hexadecimal digit value. -/
def hexVal (c : Char) : Option Nat :=
  if '0' ≤ c ∧ c ≤ '9' then some (c.toNat - 48)
  else if 'a' ≤ c ∧ c ≤ 'f' then some (c.toNat - 87)
  else if 'A' ≤ c ∧ c ≤ 'F' then some (c.toNat - 55)
  else none

/-- Parse a JSON string body (the opening quote already consumed):
returns the decoded characters and the remainder after the closing
quote. -/
def parseJSONString : Nat → List Char → Option (List Char × List Char)
  | 0, _ => none
  | _, [] => none
  | fuel + 1, c :: rest =>
    if c = '"' then some ([], rest)
    else if c = '\\' then
      match rest with
      | [] => none
      | e :: rest2 =>
        let esc : Option (Char × List Char) :=
          if e = '"' then some ('"', rest2)
          else if e = '\\' then some ('\\', rest2)
          else if e = '/' then some ('/', rest2)
          else if e = 'b' then some ('\x08', rest2)
          else if e = 'f' then some ('\x0c', rest2)
          else if e = 'n' then some ('\n', rest2)
          else if e = 'r' then some ('\r', rest2)
          else if e = 't' then some ('\t', rest2)
          else if e = 'u' then
            match rest2 with
            | h1 :: h2 :: h3 :: h4 :: rest3 =>
              match hexVal h1, hexVal h2, hexVal h3, hexVal h4 with
              | some a, some b, some c2, some d =>
                some (Char.ofNat (4096 * a + 256 * b + 16 * c2 + d), rest3)
              | _, _, _, _ => none
            | _ => none
          else none
        match esc with
        | some (ch, rest3) =>
          match parseJSONString fuel rest3 with
          | some (acc, rem) => some (ch :: acc, rem)
          | none => none
        | none => none
    else if c.toNat < 32 then none
    else
      match parseJSONString fuel rest with
      | some (acc, rem) => some (c :: acc, rem)
      | none => none

/-- Digit characters to their decimal value. -/
def digitsToNat (ds : List Char) : Nat :=
  ds.foldl (fun a c => 10 * a + (c.toNat - 48)) 0

/-- Parse a JSON numeric literal starting at `cs` (first char is `-`
or a digit). Integral literals yield `num`; literals with a fraction
or exponent are validated and kept as raw text (floats are outside
this model). -/
def parseJSONNumber (cs : List Char) : Option (JVal × List Char) :=
  let core : List Char → Option (Nat × List Char × Bool) := fun ds =>
    match ds with
    | [] => none
    | c :: rest =>
      if c = '0' then some (0, rest, true)
      else if c.isDigit then
        let p := List.span Char.isDigit (c :: rest)
        some (digitsToNat p.1, p.2, true)
      else none
  let (neg, body) : Bool × List Char :=
    match cs with
    | '-' :: rest => (true, rest)
    | _ => (false, cs)
  match core body with
  | none => none
  | some (n, rest, _) =>
    let hasFrac := match rest with
      | '.' :: _ => true
      | _ => false
    let afterFrac : Option (List Char) :=
      match rest with
      | '.' :: f1 :: frest =>
        if f1.isDigit then some (List.span Char.isDigit (f1 :: frest)).2 else none
      | '.' :: [] => none
      | _ => some rest
    match afterFrac with
    | none => none
    | some rest2 =>
      let hasExp := match rest2 with
        | 'e' :: _ => true
        | 'E' :: _ => true
        | _ => false
      let afterExp : Option (List Char) :=
        match rest2 with
        | 'e' :: erest =>
          (match erest with
           | '+' :: d1 :: drest =>
             if d1.isDigit then some (List.span Char.isDigit (d1 :: drest)).2 else none
           | '-' :: d1 :: drest =>
             if d1.isDigit then some (List.span Char.isDigit (d1 :: drest)).2 else none
           | d1 :: drest =>
             if d1.isDigit then some (List.span Char.isDigit (d1 :: drest)).2 else none
           | [] => none)
        | 'E' :: erest =>
          (match erest with
           | '+' :: d1 :: drest =>
             if d1.isDigit then some (List.span Char.isDigit (d1 :: drest)).2 else none
           | '-' :: d1 :: drest =>
             if d1.isDigit then some (List.span Char.isDigit (d1 :: drest)).2 else none
           | d1 :: drest =>
             if d1.isDigit then some (List.span Char.isDigit (d1 :: drest)).2 else none
           | [] => none)
        | _ => some rest2
      match afterExp with
      | none => none
      | some rest3 =>
        if hasFrac || hasExp then
          let consumed := cs.length - rest3.length
          some (.nonIntegral (String.mk (cs.take consumed)), rest3)
        else
          some (.num (if neg then -(n : Int) else (n : Int)), rest3)

mutual
/-- Parse one JSON value (recursion fuel first). -/
def parseJSONValue : Nat → List Char → Option (JVal × List Char)
  | 0, _ => none
  | fuel + 1, cs =>
    match skipWs cs with
    | [] => none
    | c :: rest =>
      if c = '{' then
        match skipWs rest with
        | '}' :: rest2 => some (.obj [], rest2)
        | rest2 =>
          match parseJSONMembers fuel rest2 with
          | some (fs, rest3) => some (.obj fs, rest3)
          | none => none
      else if c = '[' then
        match skipWs rest with
        | ']' :: rest2 => some (.arr [], rest2)
        | rest2 =>
          match parseJSONElements fuel rest2 with
          | some (xs, rest3) => some (.arr xs, rest3)
          | none => none
      else if c = '"' then
        match parseJSONString (rest.length + 1) rest with
        | some (chars, rest2) => some (.str (String.mk chars), rest2)
        | none => none
      else if c = 't' then
        match rest with
        | 'r' :: 'u' :: 'e' :: rest2 => some (.bool true, rest2)
        | _ => none
      else if c = 'f' then
        match rest with
        | 'a' :: 'l' :: 's' :: 'e' :: rest2 => some (.bool false, rest2)
        | _ => none
      else if c = 'n' then
        match rest with
        | 'u' :: 'l' :: 'l' :: rest2 => some (.null, rest2)
        | _ => none
      else if c = '-' ∨ c.isDigit then parseJSONNumber (c :: rest)
      else none

/-- Parse the members of an object after `{` (at least one member). -/
def parseJSONMembers : Nat → List Char → Option (List (String × JVal) × List Char)
  | 0, _ => none
  | fuel + 1, cs =>
    match skipWs cs with
    | '"' :: rest =>
      match parseJSONString (rest.length + 1) rest with
      | some (key, rest2) =>
        (match skipWs rest2 with
         | ':' :: rest3 =>
           match parseJSONValue fuel rest3 with
           | some (v, rest4) =>
             (match skipWs rest4 with
              | ',' :: rest5 =>
                match parseJSONMembers fuel rest5 with
                | some (fs, rest6) => some ((String.mk key, v) :: fs, rest6)
                | none => none
              | '}' :: rest5 => some ([(String.mk key, v)], rest5)
              | _ => none)
           | none => none
         | _ => none)
      | none => none
    | _ => none

/-- Parse the elements of an array after `[` (at least one element). -/
def parseJSONElements : Nat → List Char → Option (List JVal × List Char)
  | 0, _ => none
  | fuel + 1, cs =>
    match parseJSONValue fuel cs with
    | some (v, rest) =>
      (match skipWs rest with
       | ',' :: rest2 =>
         match parseJSONElements fuel rest2 with
         | some (xs, rest3) => some (v :: xs, rest3)
         | none => none
       | ']' :: rest2 => some ([v], rest2)
       | _ => none)
    | none => none
end

/-- Model of `JSON.parse(s)`: parse one value and require only whitespace after
it; `none` models the thrown `SyntaxError`. -/
def parseJSONText (s : String) : Option JVal :=
  match parseJSONValue (s.length + 1) s.data with
  | some (v, rest) => if skipWs rest = [] then some v else none
  | none => none

/-- The `useState` initializer for `events` in `src/App.js`: read the
`calendarEvents` entry; if absent (or falsy, e.g. the empty string)
return `[]`; try `JSON.parse` with the date reviver; on a parse error
the catch logs a warning and the initializer falls through to `[]`. -/
def loadEvents (saved : Option String) : RVal :=
  match saved with
  | none => .arr []
  | some s =>
    if s = "" then .arr []
    else
      match parseJSONText s with
      | some v => reviveVal "" v
      | none => .arr []

/-- **C2.** Save + load round trip: serializing the event store (dates
in their ISO string form) and parsing it back with the revival rule —
which converts exactly the `start` and `end` fields from string form
back to date values and passes every other field through unchanged —
yields the same records, with `start`/`end` equal to the millisecond.
The hypothesis is the valid JavaScript `Date` range, an invariant of
every date the app can store. -/
theorem events_save_load_roundtrip (events : List EventRec)
    (h : ∀ ev ∈ events, dateInRange ev.start ∧ dateInRange ev.end_) :
    parseWithReviver (serializeEvents events) = .arr (events.map eventAsLoaded) :=
  events_serialize_load_roundtrip events h

/-- Witness for C2 at a concrete one-event store. -/
theorem events_save_load_roundtrip_witness :
    parseWithReviver (serializeEvents
      [⟨1700000000000, "Trip", "", "plan", 1700000000123, 1700003600456⟩]) =
    .arr [eventAsLoaded ⟨1700000000000, "Trip", "", "plan", 1700000000123, 1700003600456⟩] :=
  events_save_load_roundtrip
    [⟨1700000000000, "Trip", "", "plan", 1700000000123, 1700003600456⟩]
    (by decide)

/-- **C3.** Startup initialization: when the persisted entry is absent
or unparsable — in particular the literal text `{not json` — the event
store initializes to the empty sequence. The model is a total
function, mirroring the `try`/`catch` that confines the parse error to
a logged warning. -/
theorem load_unparsable_empty :
    (∀ saved, (saved = none ∨ ∃ s, saved = some s ∧ parseJSONText s = none) →
      loadEvents saved = .arr []) ∧
    parseJSONText "\x7bnot json" = none ∧
    loadEvents (some "\x7bnot json") = .arr [] := by
  refine ⟨?_, ?_, ?_⟩
  · rintro saved (rfl | ⟨s, rfl, hp⟩)
    · rfl
    · by_cases hs : s = ""
      · simp [loadEvents, hs]
      · simp [loadEvents, hs, hp]
  · rfl
  · rfl

/-- Witness for C3: the scenario entries, discharged through the
theorem itself. -/
theorem load_unparsable_empty_witness :
    loadEvents none = .arr [] ∧ loadEvents (some "\x7bnot json") = .arr [] :=
  ⟨load_unparsable_empty.1 none (Or.inl rfl),
   load_unparsable_empty.1 (some "\x7bnot json")
     (Or.inr ⟨"\x7bnot json", rfl, load_unparsable_empty.2.1⟩)⟩
